import Mathlib

/-!
Shallow embedding of the shopify-webhook-proxy server (three revisions:
`src/index.js`, `src/unnamed/part_000`, `src/unnamed/part_001`) and proofs
about its signature verification, credential resolution, relay-client error
normalization and route handlers.
-/

namespace ShopifyProxy

/-- JavaScript/JSON values as they occur in request bodies. -/
inductive JVal where
  | null : JVal
  | bool (b : Bool) : JVal
  | num (n : Int) : JVal
  | str (s : String) : JVal
  | arr (xs : List JVal) : JVal
  | obj (fields : List (String × JVal)) : JVal
deriving Repr

/-- JavaScript truthiness of a possibly-undefined value (`none` = `undefined`). -/
def truthy : Option JVal → Bool
  | none => false
  | some .null => false
  | some (.bool b) => b
  | some (.num n) => !(n == 0)
  | some (.str s) => !(s == "")
  | some (.arr _) => true
  | some (.obj _) => true

/-- JavaScript `typeof` of a possibly-undefined value. -/
def jsTypeof : Option JVal → String
  | none => "undefined"
  | some .null => "object"
  | some (.bool _) => "boolean"
  | some (.num _) => "number"
  | some (.str _) => "string"
  | some (.arr _) => "object"
  | some (.obj _) => "object"

/-- JavaScript `a || b` on possibly-undefined values. -/
def jsOr (a b : Option JVal) : Option JVal :=
  if truthy a then a else b

/-- Coerce a possibly-undefined value to a value (`undefined` behaves like `null`
here; in the embedded code this is only applied where the value is present). -/
def jsVal : Option JVal → JVal
  | some v => v
  | none => .null

/-- Truthiness of a possibly-undefined string (empty string is falsy). -/
def strTruthy : Option String → Bool
  | none => false
  | some s => !(s == "")

/-- JavaScript `s || d` for a possibly-undefined string with a string default. -/
def strOr (o : Option String) (d : String) : String :=
  match o with
  | none => d
  | some s => if s = "" then d else s

mutual

/-- String conversion as performed by JS template literals / `String(...)`. -/
def jsToString : JVal → String
  | .null => "null"
  | .bool b => if b then "true" else "false"
  | .num n => toString n
  | .str s => s
  | .arr xs => String.intercalate "," (jsToStringList xs)
  | .obj _ => "[object Object]"

/-- Stringification of array elements, mutual with `jsToString`. -/
def jsToStringList : List JVal → List String
  | [] => []
  | x :: xs => jsToString x :: jsToStringList xs

end

/-- Property lookup on an object value; anything else yields `undefined`. -/
def objGet : JVal → String → Option JVal
  | .obj fs, k => (fs.find? (fun p => p.fst == k)).map Prod.snd
  | _, _ => none

/-- An inbound HTTP request as Express presents it to the handlers. -/
structure Request where
  headers : List (String × String)
  rawBody : Option (List Nat)
  body : Option JVal
  query : List (String × String)

/-- ASCII lowercasing, as `toLowerCase` behaves on the ASCII header/query
values compared in this code base. -/
def lowerAscii (s : String) : String :=
  ⟨s.data.map Char.toLower⟩

/-- `req.get(name)`: case-insensitive header lookup. -/
def Request.get (r : Request) (name : String) : Option String :=
  (r.headers.find? (fun p => lowerAscii p.fst == lowerAscii name)).map Prod.snd

/-- `req.query.name`: query-parameter lookup. -/
def Request.queryGet (r : Request) (name : String) : Option String :=
  (r.query.find? (fun p => p.fst == name)).map Prod.snd

/-- `req.body?.k`: optional-chained body-field lookup. -/
def bodyGet (req : Request) (k : String) : Option JVal :=
  match req.body with
  | none => none
  | some b => objGet b k

/-- The environment variables the server reads at startup. -/
structure Env where
  webhookSecret : Option String
  n8nUrl : Option String
  adminToken : Option String
  shopDomain : Option String
  apiVersionEnv : Option String

/-- `SHOPIFY_API_VERSION = process.env.SHOPIFY_API_VERSION || "2026-01"`. -/
def shopifyApiVersion (env : Env) : String :=
  strOr env.apiVersionEnv "2026-01"

/-- Result of a JS computation that can also end in a thrown exception. -/
inductive JsResult (α : Type) where
  | ok (v : α) : JsResult α
  | exn (msg : String) : JsResult α
deriving Repr, DecidableEq

/-- `crypto.timingSafeEqual(Buffer.from(a), Buffer.from(b))`: throws when the
UTF-8 byte lengths differ, otherwise compares the byte sequences. -/
def timingSafeEqual (a b : String) : JsResult Bool :=
  if a.utf8ByteSize = b.utf8ByteSize then .ok (a == b)
  else .exn "ERR_CRYPTO_TIMING_SAFE_EQUAL_LENGTH"

/-- The type of the HMAC-SHA256-then-base64 primitive
(`crypto.createHmac("sha256", secret).update(raw).digest("base64")`), which the
development treats as an abstract deterministic function of secret and bytes. -/
def HmacFun : Type := String → List Nat → String

/-- `getShopifyAccessToken` (identical in `src/index.js` and
`src/unnamed/part_000`): header token, else body token, else env fallback. -/
def getShopifyAccessToken (env : Env) (req : Request) : Option JVal :=
  let tokenFromHeader :=
    jsOr ((req.get "x-shopify-access-token").map JVal.str)
      ((req.get "X-Shopify-Access-Token").map JVal.str)
  let tokenFromBody := bodyGet req "shopifyAccessToken"
  jsOr (jsOr tokenFromHeader tokenFromBody) (env.adminToken.map JVal.str)

/-- `getShopDomain` (identical in `src/index.js` and `src/unnamed/part_000`):
body field, else env default. -/
def getShopDomain (env : Env) (req : Request) : Option JVal :=
  jsOr (bodyGet req "shopDomain") (env.shopDomain.map JVal.str)

/-- `v?.k`: optional-chained property access on a possibly-undefined value. -/
def optChainGet (o : Option JVal) (k : String) : Option JVal :=
  match o with
  | none => none
  | some v => objGet v k

/-- `loi[0]` for a possibly-undefined value. -/
def arrFirst : Option JVal → Option JVal
  | some (.arr (x :: _)) => some x
  | _ => none

/-- `Array.isArray(v)` for a possibly-undefined value. -/
def isArray : Option JVal → Bool
  | some (.arr _) => true
  | _ => false

/-- `v.length` of a possibly-undefined array value (only used under an
`Array.isArray` guard). -/
def arrLength : Option JVal → Nat
  | some (.arr xs) => xs.length
  | _ => 0

/-- `b === true` for a possibly-undefined body field. -/
def isTrueLiteral : Option JVal → Bool
  | some (.bool true) => true
  | _ => false

/-- The dry-run flag computation shared by the refund handlers of
`src/index.js` and `src/unnamed/part_000`:
`String(req.query.dryRun || "").toLowerCase() === "true" || req.body?.dryRun === true`. -/
def dryRunFlag (req : Request) : Bool :=
  (lowerAscii (strOr (req.queryGet "dryRun") "") == "true") || isTrueLiteral (bodyGet req "dryRun")

/-- The headers reported by a dry-run preview: access token masked. -/
def maskedHeaders : List (String × String) :=
  [("X-Shopify-Access-Token", "*****"),
   ("Content-Type", "application/json"),
   ("Accept", "application/json")]

/-- The server-misconfiguration message used by the 500 responses. -/
def missingTokenMsg : String :=
  "Missing Shopify access token. Provide header X-Shopify-Access-Token or body.shopifyAccessToken, or set SHOPIFY_ADMIN_ACCESS_TOKEN env var."

/-- The `wouldCall` object returned by a dry-run response. -/
structure WouldCall where
  method : String
  url : String
  headers : List (String × String)
  body : JVal

/-- The argument record a handler passes to `shopifyAdminRequest`. -/
structure AdminCall where
  shopDomain : JVal
  accessToken : JVal
  method : String
  path : String
  body : Option JVal
  apiVersion : Option JVal

/-- What a command handler does with a request, up to the point where it
either responds without upstream contact or performs the upstream call. -/
inductive HandlerResult where
  | clientError (status : Nat) (errorMsg : String) : HandlerResult
  | clientErrorWithValue (status : Nat) (errorMsg : String)
      (receivedType : String) (receivedValue : Option JVal) : HandlerResult
  | serverError (status : Nat) (errorMsg : String) : HandlerResult
  | dryRunResponse (wc : WouldCall) : HandlerResult
  | liveCall (c : AdminCall) : HandlerResult

/-- `let json; try { json = text ? JSON.parse(text) : {} } catch { json = { raw: text } }`
from `shopifyAdminRequest`, parametrized by the JSON parser. -/
def parseOrRaw (jparse : String → Option JVal) (text : String) : JVal :=
  if text = "" then .obj []
  else
    match jparse text with
    | some j => j
    | none => .obj [("raw", .str text)]

/-- The structured error thrown by `shopifyAdminRequest` on a non-2xx
response. `url` is `none` where the revision does not attach it. -/
structure ShopifyApiError where
  message : String
  status : Nat
  details : JVal
  url : Option String

/-- `response.ok`: HTTP status in the 2xx range. -/
def respOk (status : Nat) : Bool :=
  decide (200 ≤ status ∧ status ≤ 299)

/-- Externally visible actions of the webhook route, in order. -/
inductive Event where
  | respond (status : Nat) : Event
  | forwardPost (url : String) (payload : JVal) : Event
deriving Repr

namespace IndexJs

/-- `verifyShopifyHmac` from `src/index.js` (lines 34-49): checks header, raw
body and secret presence, then compares digests, catching any comparison
exception and returning `false` for it. -/
def verifyShopifyHmac (hb : HmacFun) (env : Env) (req : Request) : Bool :=
  let hmac := req.get "x-shopify-hmac-sha256"
  if ¬ strTruthy hmac ∨ req.rawBody = none then false
  else if ¬ strTruthy env.webhookSecret then false
  else
    let digest := hb (env.webhookSecret.getD "") (req.rawBody.getD [])
    match timingSafeEqual digest (hmac.getD "") with
    | .ok b => b
    | .exn _ => false

/-- `getApiVersion` from `src/index.js` (lines 62-65):
`req.body?.apiVersion || req.query?.apiVersion || SHOPIFY_API_VERSION`. -/
def getApiVersion (env : Env) (req : Request) : JVal :=
  match jsOr (jsOr (bodyGet req "apiVersion") ((req.queryGet "apiVersion").map JVal.str))
      (some (JVal.str (shopifyApiVersion env))) with
  | some v => v
  | none => JVal.null

/-- The URL built by `shopifyAdminRequest` in `src/index.js` (lines 75-76):
`const version = apiVersion || SHOPIFY_API_VERSION;`
`const url = https://(shopDomain)/admin/api/(version)(path)`. -/
def shopifyAdminRequestUrl (env : Env) (c : AdminCall) : String :=
  let version := jsVal (jsOr c.apiVersion (some (JVal.str (shopifyApiVersion env))))
  "https://" ++ jsToString c.shopDomain ++ "/admin/api/" ++ jsToString version ++ c.path

/-- Response normalization of `shopifyAdminRequest` in `src/index.js`
(lines 88-105): body parsed-or-wrapped; non-2xx throws an error carrying
status, details and the attempted URL. -/
def shopifyAdminRequestResult (jparse : String → Option JVal) (url : String)
    (status : Nat) (text : String) : Except ShopifyApiError JVal :=
  let json := parseOrRaw jparse text
  if respOk status then .ok json
  else
    .error { message := "Shopify Admin API error " ++ toString status,
             status := status, details := json, url := some url }

/-- The `POST /shopify/refund` handler of `src/index.js` (lines 167-229), up
to the upstream call. -/
def refundHandler (env : Env) (req : Request) : HandlerResult :=
  let dryRun := dryRunFlag req
  let shopDomain := getShopDomain env req
  let apiVersion := getApiVersion env req
  let orderId := bodyGet req "orderId"
  let refundObj := bodyGet req "refund"
  let accessToken := getShopifyAccessToken env req
  if ¬ truthy shopDomain then .clientError 400 "Missing shopDomain"
  else if ¬ truthy orderId then .clientError 400 "Missing orderId"
  else if ¬ truthy refundObj ∨ ¬ (jsTypeof refundObj == "object") then
    .clientError 400 "Missing refund object at body.refund"
  else if ¬ truthy accessToken then .serverError 500 missingTokenMsg
  else
    let path := "/orders/" ++ jsToString (jsVal orderId) ++ "/refunds.json"
    let body := JVal.obj [("refund", jsVal refundObj)]
    if dryRun then
      .dryRunResponse
        { method := "POST",
          url := "https://" ++ jsToString (jsVal shopDomain) ++ "/admin/api/"
                   ++ jsToString apiVersion ++ path,
          headers := maskedHeaders,
          body := body }
    else
      .liveCall
        { shopDomain := jsVal shopDomain, accessToken := jsVal accessToken,
          method := "POST", path := path, body := some body,
          apiVersion := some apiVersion }

/-- The `POST /shopify/fulfillments/create` handler of `src/index.js`
(lines 314-359), up to the upstream call. It checks only that
`body.fulfillment` is a truthy object; it performs no
`fulfillment_order_id` type validation. -/
def fulfillmentsCreateHandler (env : Env) (req : Request) : HandlerResult :=
  let shopDomain := getShopDomain env req
  let apiVersion := getApiVersion env req
  let accessToken := getShopifyAccessToken env req
  let fulfillment := bodyGet req "fulfillment"
  if ¬ truthy shopDomain then .clientError 400 "Missing shopDomain"
  else if ¬ truthy accessToken then .serverError 500 missingTokenMsg
  else if ¬ truthy fulfillment ∨ ¬ (jsTypeof fulfillment == "object") then
    .clientError 400 "Missing fulfillment object at body.fulfillment"
  else
    .liveCall
      { shopDomain := jsVal shopDomain, accessToken := jsVal accessToken,
        method := "POST", path := "/fulfillments.json",
        body := some (JVal.obj [("fulfillment", jsVal fulfillment)]),
        apiVersion := some apiVersion }

/-- The relay envelope built by the webhook handler (lines 132-141). -/
def buildPayload (req : Request) : JVal :=
  .obj [("shopify", .obj [
      ("topic", jsVal ((req.get "x-shopify-topic").map JVal.str)),
      ("webhook_id", jsVal ((req.get "x-shopify-webhook-id").map JVal.str)),
      ("shop_domain", jsVal ((req.get "x-shopify-shop-domain").map JVal.str)),
      ("triggered_at", jsVal ((req.get "x-shopify-triggered-at").map JVal.str)),
      ("test", .bool (req.get "x-shopify-test" == some "true"))]),
    ("body", jsVal req.body)]

/-- The `POST /shopify/webhooks` handler of `src/index.js` (lines 127-161) as
the ordered list of its externally visible actions. `fetchResult` is the
outcome of the downstream forward; the handler catches and logs a failed
forward, so both branches of the try/catch produce the same trace. -/
def webhooksHandler (hb : HmacFun) (env : Env) (req : Request)
    (fetchResult : String → JVal → JsResult Unit) : List Event :=
  if ¬ verifyShopifyHmac hb env req then [.respond 401]
  else if ¬ strTruthy env.n8nUrl then [.respond 200]
  else
    match fetchResult (env.n8nUrl.getD "") (buildPayload req) with
    | .ok _ => [.respond 200, .forwardPost (env.n8nUrl.getD "") (buildPayload req)]
    | .exn _ => [.respond 200, .forwardPost (env.n8nUrl.getD "") (buildPayload req)]

end IndexJs

namespace Part000

/-- `verifyShopifyHmac` from `src/unnamed/part_000` (lines 34-45): same guards
as `index.js` but the `timingSafeEqual` call is not wrapped in try/catch, so a
comparison exception propagates to the caller. -/
def verifyShopifyHmac (hb : HmacFun) (env : Env) (req : Request) : JsResult Bool :=
  let hmac := req.get "x-shopify-hmac-sha256"
  if ¬ strTruthy hmac ∨ req.rawBody = none then .ok false
  else if ¬ strTruthy env.webhookSecret then .ok false
  else
    let digest := hb (env.webhookSecret.getD "") (req.rawBody.getD [])
    timingSafeEqual digest (hmac.getD "")

/-- The URL built by `shopifyAdminRequest` in `src/unnamed/part_000`
(lines 58-59): the function takes no `apiVersion` argument and always uses the
process-wide `SHOPIFY_API_VERSION`. -/
def adminRequestUrl (env : Env) (c : AdminCall) : String :=
  "https://" ++ jsToString c.shopDomain ++ "/admin/api/" ++ shopifyApiVersion env ++ c.path

/-- Response normalization of `shopifyAdminRequest` in `src/unnamed/part_000`
(lines 71-87): like `src/index.js` but the thrown error carries only status
and details, no `url` property. -/
def shopifyAdminRequestResult (jparse : String → Option JVal) (url : String)
    (status : Nat) (text : String) : Except ShopifyApiError JVal :=
  let json := parseOrRaw jparse text
  if respOk status then .ok json
  else
    .error { message := "Shopify Admin API error " ++ toString status,
             status := status, details := json, url := none }

/-- The `POST /shopify/refund` handler of `src/unnamed/part_000`
(lines 227-285), up to the upstream call. No per-request API version is
resolved; the dry-run URL uses the process-wide version. -/
def refundHandler (env : Env) (req : Request) : HandlerResult :=
  let dryRun := dryRunFlag req
  let shopDomain := getShopDomain env req
  let orderId := bodyGet req "orderId"
  let refundObj := bodyGet req "refund"
  let accessToken := getShopifyAccessToken env req
  if ¬ truthy shopDomain then .clientError 400 "Missing shopDomain"
  else if ¬ truthy orderId then .clientError 400 "Missing orderId"
  else if ¬ truthy refundObj ∨ ¬ (jsTypeof refundObj == "object") then
    .clientError 400 "Missing refund object at body.refund"
  else if ¬ truthy accessToken then .serverError 500 missingTokenMsg
  else
    let path := "/orders/" ++ jsToString (jsVal orderId) ++ "/refunds.json"
    let body := JVal.obj [("refund", jsVal refundObj)]
    if dryRun then
      .dryRunResponse
        { method := "POST",
          url := "https://" ++ jsToString (jsVal shopDomain) ++ "/admin/api/"
                   ++ shopifyApiVersion env ++ path,
          headers := maskedHeaders,
          body := body }
    else
      .liveCall
        { shopDomain := jsVal shopDomain, accessToken := jsVal accessToken,
          method := "POST", path := path, body := some body,
          apiVersion := none }

/-- The `POST /shopify/refund/calculate` handler of `src/unnamed/part_000`
(lines 291-349), up to the upstream call. -/
def refundCalculateHandler (env : Env) (req : Request) : HandlerResult :=
  let dryRun := dryRunFlag req
  let shopDomain := getShopDomain env req
  let orderId := bodyGet req "orderId"
  let refundObj := bodyGet req "refund"
  let accessToken := getShopifyAccessToken env req
  if ¬ truthy shopDomain then .clientError 400 "Missing shopDomain"
  else if ¬ truthy orderId then .clientError 400 "Missing orderId"
  else if ¬ truthy refundObj ∨ ¬ (jsTypeof refundObj == "object") then
    .clientError 400 "Missing refund object at body.refund"
  else if ¬ truthy accessToken then .serverError 500 missingTokenMsg
  else
    let path := "/orders/" ++ jsToString (jsVal orderId) ++ "/refunds/calculate.json"
    let body := JVal.obj [("refund", jsVal refundObj)]
    if dryRun then
      .dryRunResponse
        { method := "POST",
          url := "https://" ++ jsToString (jsVal shopDomain) ++ "/admin/api/"
                   ++ shopifyApiVersion env ++ path,
          headers := maskedHeaders,
          body := body }
    else
      .liveCall
        { shopDomain := jsVal shopDomain, accessToken := jsVal accessToken,
          method := "POST", path := path, body := some body,
          apiVersion := none }

/-- The `POST /shopify/fulfillments` handler of `src/unnamed/part_000`
(lines 161-213), up to the upstream call. Validates that
`line_items_by_fulfillment_order` is a non-empty array and that the first
entry's `fulfillment_order_id` has `typeof === "number"`, reporting the
received type otherwise. -/
def fulfillmentsHandler (env : Env) (req : Request) : HandlerResult :=
  let shopDomain := getShopDomain env req
  let accessToken := getShopifyAccessToken env req
  if ¬ truthy shopDomain then .clientError 400 "Missing shopDomain"
  else if ¬ truthy accessToken then .serverError 500 missingTokenMsg
  else
    let fulfillment := bodyGet req "fulfillment"
    if ¬ truthy fulfillment ∨ ¬ (jsTypeof fulfillment == "object") then
      .clientError 400 "Invalid body: missing `fulfillment` object at body.fulfillment"
    else
      let loi := optChainGet fulfillment "line_items_by_fulfillment_order"
      if ¬ isArray loi ∨ arrLength loi = 0 then
        .clientError 400 "`line_items_by_fulfillment_order` must be a non-empty array."
      else
        let fulfillmentOrderId := optChainGet (arrFirst loi) "fulfillment_order_id"
        if ¬ (jsTypeof fulfillmentOrderId == "number") then
          .clientErrorWithValue 400 "`fulfillment_order_id` must be a NUMBER (not string)."
            (jsTypeof fulfillmentOrderId) fulfillmentOrderId
        else
          .liveCall
            { shopDomain := jsVal shopDomain, accessToken := jsVal accessToken,
              method := "POST", path := "/fulfillments.json",
              body := some (JVal.obj [("fulfillment", jsVal fulfillment)]),
              apiVersion := none }

end Part000

namespace Part001

/-- `verifyShopifyHmac` from `src/unnamed/part_001` (lines 28-38): no secret
presence check and no try/catch. When the secret env var is unset,
`crypto.createHmac("sha256", undefined)` throws `ERR_INVALID_ARG_TYPE`; a
comparison exception also propagates. -/
def verifyShopifyHmac (hb : HmacFun) (env : Env) (req : Request) : JsResult Bool :=
  let hmac := req.get "x-shopify-hmac-sha256"
  if ¬ strTruthy hmac ∨ req.rawBody = none then .ok false
  else
    match env.webhookSecret with
    | none => .exn "ERR_INVALID_ARG_TYPE"
    | some secret =>
      timingSafeEqual (hb secret (req.rawBody.getD [])) (hmac.getD "")

/-- The shop domain hardcoded in `src/unnamed/part_001` (line 23). -/
def SHOPIFY_SHOP_DOMAIN : String := "311459-2.myshopify.com"

/-- The API version hardcoded in `src/unnamed/part_001` (line 26). -/
def SHOPIFY_API_VERSION : String := "2026-01"

/-- `a ?? b`: JS nullish coalescing on possibly-undefined values. -/
def nullish (a b : Option JVal) : Option JVal :=
  match a with
  | none => b
  | some .null => b
  | some v => some v

/-- One hexadecimal digit, uppercase, as `encodeURIComponent` emits. -/
def hexDigit (n : Nat) : Char :=
  if n < 10 then Char.ofNat (48 + n) else Char.ofNat (55 + n)

/-- Percent-encoding of one byte. -/
def percentByte (b : Nat) : String :=
  "%" ++ String.singleton (hexDigit (b / 16 % 16)) ++ String.singleton (hexDigit (b % 16))

/-- The characters `encodeURIComponent` leaves unescaped. -/
def uriUnreserved (c : Char) : Bool :=
  c.isAlphanum || [45, 95, 46, 33, 126, 42, 39, 40, 41].contains c.toNat

/-- UTF-8 bytes of a character. -/
def utf8Bytes (c : Char) : List Nat :=
  let n := c.toNat
  if n < 128 then [n]
  else if n < 2048 then [192 + n / 64, 128 + n % 64]
  else if n < 65536 then [224 + n / 4096, 128 + n / 64 % 64, 128 + n % 64]
  else [240 + n / 262144, 128 + n / 4096 % 64, 128 + n / 64 % 64, 128 + n % 64]

/-- JS `encodeURIComponent`. -/
def encodeURIComponent (s : String) : String :=
  String.join (s.data.map (fun c =>
    if uriUnreserved c then String.singleton c
    else String.join ((utf8Bytes c).map percentByte)))

/-- JS `String.prototype.trim`: strip whitespace from both ends. -/
def jsTrim (s : String) : String :=
  ⟨((s.data.dropWhile Char.isWhitespace).reverse.dropWhile Char.isWhitespace).reverse⟩

/-- `parseOrderId` from `src/unnamed/part_001` (lines 111-118): accepts
`order_id` or `orderId`, requires it to be a truthy number or string, and
normalizes it to a trimmed string. -/
def parseOrderId (reqBody : Option JVal) : Option String :=
  let orderId := nullish (optChainGet reqBody "order_id") (optChainGet reqBody "orderId")
  if ¬ truthy orderId ∨ ¬ (jsTypeof orderId == "number" || jsTypeof orderId == "string") then
    none
  else
    some (jsTrim (jsToString (jsVal orderId)))

/-- The `POST /shopify/refund` handler of `src/unnamed/part_001`
(lines 180-206), up to the upstream call. `assertRefundEnv` (lines 77-85) is
inlined as the first guard. -/
def refundHandler (env : Env) (req : Request) : HandlerResult :=
  if ¬ strTruthy env.adminToken then
    .serverError 500 "Missing env var SHOPIFY_ADMIN_ACCESS_TOKEN"
  else
    match parseOrderId req.body with
    | none =>
      .clientError 400 "Missing order_id (number/string) in request body. Provide order_id or orderId."
    | some orderId =>
      let refund := bodyGet req "refund"
      if ¬ truthy refund ∨ ¬ (jsTypeof refund == "object") ∨ isArray refund then
        .clientError 400 "Missing refund object in request body. Provide \x7b order_id, refund: \x7b ... \x7d \x7d"
      else
        .liveCall
          { shopDomain := JVal.str SHOPIFY_SHOP_DOMAIN,
            accessToken := jsVal (env.adminToken.map JVal.str),
            method := "POST",
            path := "/orders/" ++ encodeURIComponent orderId ++ "/refunds.json",
            body := some (JVal.obj [("refund", jsVal refund)]),
            apiVersion := none }

end Part001

/-! Concrete fixtures used by witnesses and counterexamples. -/

/-- An environment with nothing configured. -/
def emptyEnv : Env :=
  { webhookSecret := none, n8nUrl := none, adminToken := none,
    shopDomain := none, apiVersionEnv := none }

/-- A constant 6-byte HMAC primitive. -/
def hbDigest : HmacFun := fun _ _ => "digest"

/-- A constant 10-byte HMAC primitive, used to force a comparison length
mismatch against a 6-byte header value. -/
def hbLong : HmacFun := fun _ _ => "0123456789"

/-- A webhook request carrying a digest header and a captured raw body. -/
def reqHmac : Request :=
  { headers := [("X-Shopify-Hmac-Sha256", "digest")], rawBody := some [1, 2, 3],
    body := none, query := [] }

/-- An environment with only the webhook secret configured. -/
def envSecret : Env := { emptyEnv with webhookSecret := some "sec" }

/-- A valid refund request that supplies a per-request API version override
`2025-10` in the body (the process default being `2026-01`). -/
def reqApiOverride : Request :=
  { headers := [("x-shopify-access-token", "tok")], rawBody := none,
    body := some (.obj [("shopDomain", .str "s.example"), ("orderId", .num 1),
                        ("refund", .obj []), ("apiVersion", .str "2025-10")]),
    query := [] }

/-- The live call `src/unnamed/part_000` makes for `reqApiOverride`: the
override is not recorded (that revision resolves no per-request version). -/
def liveApiOverride : AdminCall :=
  { shopDomain := .str "s.example", accessToken := .str "tok", method := "POST",
    path := "/orders/1/refunds.json", body := some (.obj [("refund", .obj [])]),
    apiVersion := none }

/-- The live call `src/index.js` makes for `reqApiOverride`: the override is
resolved and passed along. -/
def liveApiOverrideIndex : AdminCall :=
  { liveApiOverride with apiVersion := some (.str "2025-10") }

/-! Theorems. -/

/-- C1. The claim quantifies over the verifier in `src/index.js` and the one
in `src/unnamed/part_001`; the latter has no secret-presence check, so with
the secret unset and a digest header and raw body present it throws from
`createHmac` instead of returning false. This is the concrete input
exhibiting that: the part_001 verifier does not return `false` (it raises),
refuting the claim as stated. -/
theorem claim_C1_counterexample :
    Part001.verifyShopifyHmac hbDigest emptyEnv reqHmac = .exn "ERR_INVALID_ARG_TYPE"
    ∧ Part001.verifyShopifyHmac hbDigest emptyEnv reqHmac ≠ .ok false := by
  constructor
  · rfl
  · decide

/-- C1 (amended). The `src/index.js` verifier returns false whenever the
digest header is absent or empty, the raw body was not captured, or the
webhook secret is unset or empty. The `src/unnamed/part_001` verifier returns
false for a missing header or raw body, but with both present and the secret
unset it raises `ERR_INVALID_ARG_TYPE` instead of returning false — so a
missing secret still never makes verification succeed in any revision. -/
theorem claim_C1 (hb : HmacFun) (env : Env) (req : Request) :
    (¬ strTruthy (req.get "x-shopify-hmac-sha256") ∨ req.rawBody = none
        ∨ ¬ strTruthy env.webhookSecret →
      IndexJs.verifyShopifyHmac hb env req = false)
    ∧ (env.webhookSecret = none →
        Part001.verifyShopifyHmac hb env req =
          (if ¬ strTruthy (req.get "x-shopify-hmac-sha256") ∨ req.rawBody = none
           then .ok false else .exn "ERR_INVALID_ARG_TYPE")
        ∧ Part001.verifyShopifyHmac hb env req ≠ .ok true) := by
  constructor
  · intro h
    unfold IndexJs.verifyShopifyHmac
    by_cases h1 : ¬ strTruthy (req.get "x-shopify-hmac-sha256") ∨ req.rawBody = none
    · rw [if_pos h1]
    · rw [if_neg h1]
      rcases h with h | h | h
      · exact absurd (Or.inl h) h1
      · exact absurd (Or.inr h) h1
      · rw [if_pos h]
  · intro h
    have heq : Part001.verifyShopifyHmac hb env req =
        (if ¬ strTruthy (req.get "x-shopify-hmac-sha256") ∨ req.rawBody = none
         then .ok false else .exn "ERR_INVALID_ARG_TYPE") := by
      unfold Part001.verifyShopifyHmac
      rw [h]
    refine ⟨heq, ?_⟩
    rw [heq]
    split
    · simp
    · simp

/-- C1 witness: concrete instances for both conjuncts of the amended claim
(`index.js` with no secret returns false; `part_001` with no secret raises). -/
theorem claim_C1_witness :
    IndexJs.verifyShopifyHmac hbDigest emptyEnv reqHmac = false
    ∧ Part001.verifyShopifyHmac hbDigest emptyEnv reqHmac ≠ .ok true := by
  refine ⟨(claim_C1 hbDigest emptyEnv reqHmac).1 ?_, ((claim_C1 hbDigest emptyEnv reqHmac).2 rfl).2⟩
  exact Or.inr (Or.inr (by decide))

/-- C2. The claim also covers the verifiers of `src/unnamed/part_000` and
`src/unnamed/part_001`, which do not wrap the constant-time comparison in
try/catch. Concrete input: a digest header whose byte length differs from
the computed digest makes the part_000 verifier propagate the
`timingSafeEqual` exception to its caller instead of returning false,
refuting the claim as stated. -/
theorem claim_C2_counterexample :
    Part000.verifyShopifyHmac hbLong envSecret reqHmac = .exn "ERR_CRYPTO_TIMING_SAFE_EQUAL_LENGTH"
    ∧ Part000.verifyShopifyHmac hbLong envSecret reqHmac ≠ .ok false := by
  constructor
  · rfl
  · decide

/-- C2 (amended). In `src/index.js` any exception of the constant-time
comparison is caught inside the verifier and turned into `false`; in the
`src/unnamed/part_000` and `src/unnamed/part_001` revisions the same
exception propagates out of the verifier. -/
theorem claim_C2 (hb : HmacFun) (env : Env) (req : Request) (raw : List Nat) (msg : String)
    (hh : strTruthy (req.get "x-shopify-hmac-sha256") = true)
    (hraw : req.rawBody = some raw)
    (hs : strTruthy env.webhookSecret = true)
    (hx : timingSafeEqual (hb (env.webhookSecret.getD "") raw)
            ((req.get "x-shopify-hmac-sha256").getD "") = .exn msg) :
    IndexJs.verifyShopifyHmac hb env req = false
    ∧ Part000.verifyShopifyHmac hb env req = .exn msg
    ∧ Part001.verifyShopifyHmac hb env req = .exn msg := by
  have hc : ¬ (¬ strTruthy (req.get "x-shopify-hmac-sha256") ∨ req.rawBody = none) := by
    simp [hh, hraw]
  have hc2 : ¬ ¬ strTruthy env.webhookSecret = true := by simp [hs]
  refine ⟨?_, ?_, ?_⟩
  · unfold IndexJs.verifyShopifyHmac
    rw [if_neg hc, if_neg hc2, hraw]
    simp only [Option.getD_some]
    rw [hx]
  · unfold Part000.verifyShopifyHmac
    rw [if_neg hc, if_neg hc2, hraw]
    simp only [Option.getD_some]
    rw [hx]
  · unfold Part001.verifyShopifyHmac
    rw [if_neg hc]
    cases hsec : env.webhookSecret with
    | none =>
      rw [hsec] at hs
      simp [strTruthy] at hs
    | some s =>
      rw [hsec] at hx
      simp only [Option.getD_some] at hx
      rw [hraw]
      simp only [Option.getD_some]
      exact hx

/-- C2 witness: a concrete length-mismatching digest header; `index.js`
returns false, `part_000` and `part_001` raise. -/
theorem claim_C2_witness :
    IndexJs.verifyShopifyHmac hbLong envSecret reqHmac = false
    ∧ Part000.verifyShopifyHmac hbLong envSecret reqHmac = .exn "ERR_CRYPTO_TIMING_SAFE_EQUAL_LENGTH"
    ∧ Part001.verifyShopifyHmac hbLong envSecret reqHmac = .exn "ERR_CRYPTO_TIMING_SAFE_EQUAL_LENGTH" :=
  claim_C2 hbLong envSecret reqHmac [1, 2, 3] "ERR_CRYPTO_TIMING_SAFE_EQUAL_LENGTH"
    (by decide) rfl (by decide) (by decide)

/-- If a possibly-undefined string is falsy, mapping it into a JS value is
still falsy. -/
theorem truthy_map_str_falsy (o : Option String) (h : strTruthy o = false) :
    truthy (o.map JVal.str) = false := by
  cases o with
  | none => rfl
  | some s =>
    simp only [strTruthy] at h
    simp only [Option.map_some, truthy]
    exact h

/-- The two header reads of `getShopifyAccessToken` coincide because header
lookup is case-insensitive. -/
theorem headerToken_casefold (req : Request) :
    req.get "X-Shopify-Access-Token" = req.get "x-shopify-access-token" := rfl

/-- C3. Confirmed on `src/index.js`: the resolved access token is the header
token when that is a nonempty string, else the body token when truthy, else
the environment fallback; and a request that passes the client-side
validations but has no token from any source gets a 500 server error from the
refund handler (not a 400). -/
theorem claim_C3 (env : Env) (req : Request) :
    (∀ s : String, req.get "x-shopify-access-token" = some s → s ≠ "" →
      getShopifyAccessToken env req = some (.str s))
    ∧ (strTruthy (req.get "x-shopify-access-token") = false →
        truthy (bodyGet req "shopifyAccessToken") = true →
        getShopifyAccessToken env req = bodyGet req "shopifyAccessToken")
    ∧ (strTruthy (req.get "x-shopify-access-token") = false →
        truthy (bodyGet req "shopifyAccessToken") = false →
        getShopifyAccessToken env req = env.adminToken.map JVal.str)
    ∧ (truthy (getShopDomain env req) = true →
        truthy (bodyGet req "orderId") = true →
        truthy (bodyGet req "refund") = true →
        jsTypeof (bodyGet req "refund") = "object" →
        truthy (getShopifyAccessToken env req) = false →
        IndexJs.refundHandler env req = .serverError 500 missingTokenMsg) := by
  refine ⟨?_, ?_, ?_, ?_⟩
  · intro s h hs
    unfold getShopifyAccessToken
    rw [headerToken_casefold, h]
    have ht : truthy (some (JVal.str s)) = true := by
      simp only [truthy, bne_iff_ne, ne_eq]
      simp [hs]
    simp [jsOr, ht]
  · intro h1 h2
    unfold getShopifyAccessToken
    rw [headerToken_casefold]
    have ht : truthy ((req.get "x-shopify-access-token").map JVal.str) = false :=
      truthy_map_str_falsy _ h1
    simp [jsOr, ht, h2]
  · intro h1 h2
    unfold getShopifyAccessToken
    rw [headerToken_casefold]
    have ht : truthy ((req.get "x-shopify-access-token").map JVal.str) = false :=
      truthy_map_str_falsy _ h1
    simp [jsOr, ht, h2]
  · intro hd ho hr hrt htok
    unfold IndexJs.refundHandler
    simp [hd, ho, hr, hrt, htok]

/-- A request carrying an explicit header token, a body token and an
environment fallback all at once. -/
def reqTokenAll : Request :=
  { headers := [("X-Shopify-Access-Token", "headertok")], rawBody := none,
    body := some (.obj [("shopifyAccessToken", .str "bodytok")]), query := [] }

/-- The same request without the header token. -/
def reqTokenBody : Request := { reqTokenAll with headers := [] }

/-- An environment providing only the fallback admin token. -/
def envTok : Env := { emptyEnv with adminToken := some "envtok" }

/-- A refund request that passes validation but has no token anywhere. -/
def reqNoToken : Request :=
  { headers := [], rawBody := none,
    body := some (.obj [("shopDomain", .str "s.example"), ("orderId", .num 7),
                        ("refund", .obj [])]),
    query := [] }

/-- C3 witness: the header token overrides body and environment tokens, the
body token overrides the environment token, the fallback applies when both
are absent, and a fully-absent token yields the 500 response. -/
theorem claim_C3_witness :
    getShopifyAccessToken envTok reqTokenAll = some (.str "headertok")
    ∧ getShopifyAccessToken envTok reqTokenBody = bodyGet reqTokenBody "shopifyAccessToken"
    ∧ getShopifyAccessToken envTok reqNoToken = (envTok.adminToken).map JVal.str
    ∧ IndexJs.refundHandler emptyEnv reqNoToken = .serverError 500 missingTokenMsg := by
  refine ⟨(claim_C3 envTok reqTokenAll).1 "headertok" rfl (by decide),
          (claim_C3 envTok reqTokenBody).2.1 (by decide) rfl,
          (claim_C3 envTok reqNoToken).2.2.1 (by decide) rfl,
          (claim_C3 emptyEnv reqNoToken).2.2.2 rfl rfl rfl rfl rfl⟩

/-- C4. Confirmed on `src/index.js`: a failed verification yields exactly a
401 response and no forward; a successful verification yields a trace whose
first action is the 200 response, with no later response action; and the
whole trace is independent of the forward's outcome, so a forward failure
cannot alter the response already sent. -/
theorem claim_C4 (hb : HmacFun) (env : Env) (req : Request)
    (f : String → JVal → JsResult Unit) :
    (IndexJs.verifyShopifyHmac hb env req = false →
      IndexJs.webhooksHandler hb env req f = [.respond 401])
    ∧ (IndexJs.verifyShopifyHmac hb env req = true →
        ∃ t, IndexJs.webhooksHandler hb env req f = .respond 200 :: t
          ∧ ∀ s, Event.respond s ∉ t)
    ∧ (∀ g, IndexJs.webhooksHandler hb env req f = IndexJs.webhooksHandler hb env req g) := by
  refine ⟨?_, ?_, ?_⟩
  · intro h
    unfold IndexJs.webhooksHandler
    simp [h]
  · intro h
    unfold IndexJs.webhooksHandler
    simp only [h, not_true_eq_false, if_false]
    by_cases hn : ¬ strTruthy env.n8nUrl
    · rw [if_pos hn]
      exact ⟨[], rfl, by simp⟩
    · rw [if_neg hn]
      cases hf : f (env.n8nUrl.getD "") (IndexJs.buildPayload req) with
      | ok _ =>
        exact ⟨[.forwardPost (env.n8nUrl.getD "") (IndexJs.buildPayload req)], rfl, by simp⟩
      | exn _ =>
        exact ⟨[.forwardPost (env.n8nUrl.getD "") (IndexJs.buildPayload req)], rfl, by simp⟩
  · intro g
    unfold IndexJs.webhooksHandler
    by_cases hv : ¬ IndexJs.verifyShopifyHmac hb env req
    · rw [if_pos hv, if_pos hv]
    · rw [if_neg hv, if_neg hv]
      by_cases hn : ¬ strTruthy env.n8nUrl
      · rw [if_pos hn, if_pos hn]
      · rw [if_neg hn, if_neg hn]
        cases hf : f (env.n8nUrl.getD "") (IndexJs.buildPayload req) <;>
          cases hg : g (env.n8nUrl.getD "") (IndexJs.buildPayload req) <;> rfl

/-- An environment in which the webhook secret and forward URL are set. -/
def envWebhook : Env := { envSecret with n8nUrl := some "https://n8n.example/hook" }

/-- A forward outcome that simulates an unreachable downstream. -/
def forwardBoom : String → JVal → JsResult Unit := fun _ _ => .exn "ECONNREFUSED"

/-- C4 witness: concrete traces for the failing and succeeding verification
cases, with a failing forward in the succeeding case. -/
theorem claim_C4_witness :
    IndexJs.webhooksHandler hbDigest emptyEnv reqHmac forwardBoom = [.respond 401]
    ∧ ∃ t, IndexJs.webhooksHandler hbDigest envWebhook reqHmac forwardBoom = .respond 200 :: t
        ∧ ∀ s, Event.respond s ∉ t :=
  ⟨(claim_C4 hbDigest emptyEnv reqHmac forwardBoom).1 rfl,
   (claim_C4 hbDigest envWebhook reqHmac forwardBoom).2.1 rfl⟩

/-- A JSON parser that fails on every input, modelling an upstream plain-text
error body. -/
def jparseFail : String → Option JVal := fun _ => none

/-- C5. The claim also covers `shopifyAdminRequest` of `src/unnamed/part_000`,
whose thrown error carries status and parsed-or-raw details but no `url`
property. Concrete non-2xx response: the part_000 failure's `url` is absent,
not the attempted URL, refuting the claim as stated. -/
theorem claim_C5_counterexample :
    Part000.shopifyAdminRequestResult jparseFail
        "https://s.example/admin/api/2026-01/orders/1/refunds.json" 404 "Not Found"
      = .error { message := "Shopify Admin API error 404", status := 404,
                 details := .obj [("raw", .str "Not Found")], url := none }
    ∧ (none : Option String)
        ≠ some "https://s.example/admin/api/2026-01/orders/1/refunds.json" := by
  exact ⟨rfl, by simp⟩

/-- C5 (amended). For every non-2xx response, `shopifyAdminRequest` in
`src/index.js` produces a structured failure carrying the numeric status, the
body parsed as JSON or — when parsing fails on a nonempty body — the raw text
wrapped under a `raw` key (an empty body yields an empty object), and the
exact URL attempted; the `src/unnamed/part_000` revision produces the same
failure but without the URL. -/
theorem claim_C5 (jparse : String → Option JVal) (url : String) (status : Nat)
    (text : String) (h : respOk status = false) :
    IndexJs.shopifyAdminRequestResult jparse url status text
      = .error { message := "Shopify Admin API error " ++ toString status,
                 status := status, details := parseOrRaw jparse text, url := some url }
    ∧ Part000.shopifyAdminRequestResult jparse url status text
      = .error { message := "Shopify Admin API error " ++ toString status,
                 status := status, details := parseOrRaw jparse text, url := none }
    ∧ (text ≠ "" → jparse text = none →
        parseOrRaw jparse text = .obj [("raw", .str text)])
    ∧ (∀ j, text ≠ "" → jparse text = some j → parseOrRaw jparse text = j) := by
  have hc : ¬ respOk status = true := by simp [h]
  refine ⟨?_, ?_, ?_, ?_⟩
  · unfold IndexJs.shopifyAdminRequestResult
    rw [if_neg hc]
  · unfold Part000.shopifyAdminRequestResult
    rw [if_neg hc]
  · intro ht hp
    unfold parseOrRaw
    rw [if_neg ht, hp]
  · intro j ht hp
    unfold parseOrRaw
    rw [if_neg ht, hp]

/-- C5 witness: a concrete 404 with an unparseable plain-text body. -/
theorem claim_C5_witness :
    IndexJs.shopifyAdminRequestResult jparseFail
        "https://s.example/admin/api/2026-01/x.json" 404 "oops"
      = .error { message := "Shopify Admin API error 404", status := 404,
                 details := parseOrRaw jparseFail "oops",
                 url := some "https://s.example/admin/api/2026-01/x.json" }
    ∧ parseOrRaw jparseFail "oops" = .obj [("raw", .str "oops")] :=
  ⟨(claim_C5 jparseFail "https://s.example/admin/api/2026-01/x.json" 404 "oops" rfl).1,
   (claim_C5 jparseFail "https://s.example/admin/api/2026-01/x.json" 404 "oops" rfl).2.2.1
     (by decide) rfl⟩

/-- The process default version is never the empty string. -/
theorem shopifyApiVersion_ne_empty (env : Env) : shopifyApiVersion env ≠ "" := by
  unfold shopifyApiVersion strOr
  cases env.apiVersionEnv with
  | none => decide
  | some s =>
    show (if s = "" then "2026-01" else s) ≠ ""
    by_cases hs : s = ""
    · rw [if_pos hs]; decide
    · rw [if_neg hs]; exact hs

/-- A nonempty string value is truthy. -/
theorem truthy_str (s : String) (h : s ≠ "") : truthy (some (.str s)) = true := by
  simp only [truthy, bne_iff_ne, ne_eq]
  simp [h]

/-- `a || b` is truthy whenever `b` is a truthy value. -/
theorem jsOr_truthy_right (a : Option JVal) (v : JVal) (hv : truthy (some v) = true) :
    truthy (jsOr a (some v)) = true := by
  unfold jsOr
  split
  · next h => exact h
  · exact hv

/-- The resolved API version of `src/index.js` is always truthy (the final
fallback is a nonempty string literal). -/
theorem truthy_getApiVersion (env : Env) (req : Request) :
    truthy (some (IndexJs.getApiVersion env req)) = true := by
  have hX : truthy (jsOr (jsOr (bodyGet req "apiVersion")
      ((req.queryGet "apiVersion").map JVal.str))
      (some (JVal.str (shopifyApiVersion env)))) = true :=
    jsOr_truthy_right _ _ (truthy_str _ (shopifyApiVersion_ne_empty env))
  unfold IndexJs.getApiVersion
  cases hx : jsOr (jsOr (bodyGet req "apiVersion") ((req.queryGet "apiVersion").map JVal.str))
      (some (JVal.str (shopifyApiVersion env))) with
  | none =>
    rw [hx] at hX
    exact absurd hX (by simp [truthy])
  | some v =>
    rw [hx] at hX
    exact hX

/-- C6. The claim also covers `shopifyAdminRequest` of `src/unnamed/part_000`
(lines 58-59), which takes no apiVersion argument: a refund request supplying
`apiVersion: "2025-10"` in the body still produces a relay URL built with the
process default `2026-01`, refuting the claim as stated. -/
theorem claim_C6_counterexample :
    bodyGet reqApiOverride "apiVersion" = some (.str "2025-10")
    ∧ Part000.refundHandler emptyEnv reqApiOverride = .liveCall liveApiOverride
    ∧ Part000.adminRequestUrl emptyEnv liveApiOverride
        = "https://s.example/admin/api/2026-01/orders/1/refunds.json" :=
  ⟨rfl, rfl, rfl⟩

/-- C6 (amended). In `src/index.js` the API version is the body field when
truthy, else the query parameter when a nonempty string, else the process
default, and the relay URL of a live refund call is built with exactly that
resolved version; in the `src/unnamed/part_000` revision the relay URL is
always built with the process default and per-request overrides are ignored. -/
theorem claim_C6 (env : Env) (req : Request) :
    (truthy (bodyGet req "apiVersion") = true →
      IndexJs.getApiVersion env req = jsVal (bodyGet req "apiVersion"))
    ∧ (∀ q : String, truthy (bodyGet req "apiVersion") = false →
        req.queryGet "apiVersion" = some q → q ≠ "" →
        IndexJs.getApiVersion env req = .str q)
    ∧ (truthy (bodyGet req "apiVersion") = false →
        strTruthy (req.queryGet "apiVersion") = false →
        IndexJs.getApiVersion env req = .str (shopifyApiVersion env))
    ∧ (∀ c, IndexJs.refundHandler env req = .liveCall c →
        c.apiVersion = some (IndexJs.getApiVersion env req)
        ∧ IndexJs.shopifyAdminRequestUrl env c
            = "https://" ++ jsToString c.shopDomain ++ "/admin/api/"
                ++ jsToString (IndexJs.getApiVersion env req) ++ c.path)
    ∧ (∀ c, Part000.refundHandler env req = .liveCall c →
        c.apiVersion = none
        ∧ Part000.adminRequestUrl env c
            = "https://" ++ jsToString c.shopDomain ++ "/admin/api/"
                ++ shopifyApiVersion env ++ c.path) := by
  refine ⟨?_, ?_, ?_, ?_, ?_⟩
  · intro h
    unfold IndexJs.getApiVersion
    have h1 : jsOr (bodyGet req "apiVersion") ((req.queryGet "apiVersion").map JVal.str)
        = bodyGet req "apiVersion" := by unfold jsOr; rw [if_pos h]
    rw [h1]
    have h2 : truthy (bodyGet req "apiVersion") = true := h
    unfold jsOr
    rw [if_pos h2]
    cases hb : bodyGet req "apiVersion" with
    | none => rw [hb] at h2; simp [truthy] at h2
    | some v => rfl
  · intro q h hq hqe
    unfold IndexJs.getApiVersion
    have h1 : jsOr (bodyGet req "apiVersion") ((req.queryGet "apiVersion").map JVal.str)
        = (req.queryGet "apiVersion").map JVal.str := by unfold jsOr; rw [if_neg (by simp [h])]
    rw [h1, hq]
    have h2 : truthy (some (JVal.str q)) = true := truthy_str q hqe
    unfold jsOr
    rw [if_pos (by simpa using h2)]
    rfl
  · intro h hq
    unfold IndexJs.getApiVersion
    have h1 : jsOr (bodyGet req "apiVersion") ((req.queryGet "apiVersion").map JVal.str)
        = (req.queryGet "apiVersion").map JVal.str := by unfold jsOr; rw [if_neg (by simp [h])]
    have h2 : truthy ((req.queryGet "apiVersion").map JVal.str) = false :=
      truthy_map_str_falsy _ hq
    rw [h1]
    unfold jsOr
    rw [if_neg (by simp [h2])]
  · intro c h
    simp only [IndexJs.refundHandler] at h
    split at h
    · exact absurd h (by simp)
    split at h
    · exact absurd h (by simp)
    split at h
    · exact absurd h (by simp)
    split at h
    · exact absurd h (by simp)
    split at h
    · exact absurd h (by simp)
    · have hc := (HandlerResult.liveCall.inj h).symm
      subst hc
      refine ⟨rfl, ?_⟩
      unfold IndexJs.shopifyAdminRequestUrl
      have hv : jsOr (some (IndexJs.getApiVersion env req))
          (some (JVal.str (shopifyApiVersion env))) = some (IndexJs.getApiVersion env req) := by
        unfold jsOr
        rw [if_pos (truthy_getApiVersion env req)]
      rw [hv]
      rfl
  · intro c h
    simp only [Part000.refundHandler] at h
    split at h
    · exact absurd h (by simp)
    split at h
    · exact absurd h (by simp)
    split at h
    · exact absurd h (by simp)
    split at h
    · exact absurd h (by simp)
    split at h
    · exact absurd h (by simp)
    · have hc := (HandlerResult.liveCall.inj h).symm
      subst hc
      exact ⟨rfl, rfl⟩

/-- C6 witness: on `src/index.js`, a body override of `2025-10` is resolved
and used in the relay URL of the live call. -/
theorem claim_C6_witness :
    IndexJs.getApiVersion emptyEnv reqApiOverride = jsVal (bodyGet reqApiOverride "apiVersion")
    ∧ liveApiOverrideIndex.apiVersion = some (IndexJs.getApiVersion emptyEnv reqApiOverride)
    ∧ IndexJs.shopifyAdminRequestUrl emptyEnv liveApiOverrideIndex
        = "https://" ++ jsToString liveApiOverrideIndex.shopDomain ++ "/admin/api/"
            ++ jsToString (IndexJs.getApiVersion emptyEnv reqApiOverride)
            ++ liveApiOverrideIndex.path :=
  ⟨(claim_C6 emptyEnv reqApiOverride).1 rfl,
   ((claim_C6 emptyEnv reqApiOverride).2.2.2.1 liveApiOverrideIndex rfl).1,
   ((claim_C6 emptyEnv reqApiOverride).2.2.2.1 liveApiOverrideIndex rfl).2⟩

/-- The same request with the query string `?dryRun=true` put in front. -/
def withDryRunQuery (req : Request) : Request :=
  { req with query := ("dryRun", "true") :: req.query }

/-- Adding the dry-run query parameter leaves body-field lookups unchanged. -/
theorem wdrq_bodyGet (req : Request) (k : String) :
    bodyGet (withDryRunQuery req) k = bodyGet req k := rfl

/-- Adding the dry-run query parameter leaves the resolved shop domain
unchanged. -/
theorem wdrq_getShopDomain (env : Env) (req : Request) :
    getShopDomain env (withDryRunQuery req) = getShopDomain env req := rfl

/-- Adding the dry-run query parameter leaves the resolved access token
unchanged. -/
theorem wdrq_getToken (env : Env) (req : Request) :
    getShopifyAccessToken env (withDryRunQuery req) = getShopifyAccessToken env req := rfl

/-- Adding the dry-run query parameter leaves the resolved API version
unchanged (the `apiVersion` query lookup skips the prepended `dryRun` key). -/
theorem wdrq_getApiVersion (env : Env) (req : Request) :
    IndexJs.getApiVersion env (withDryRunQuery req) = IndexJs.getApiVersion env req := rfl

/-- After adding the dry-run query parameter the dry-run flag is set. -/
theorem wdrq_dryRunFlag (req : Request) : dryRunFlag (withDryRunQuery req) = true := rfl

/-- C7. Confirmed on the `src/index.js` refund handler and on the
`src/unnamed/part_000` refund-calculate handler: with the dry-run flag set
the handler never reaches the upstream call; every dry-run response carries
exactly the masked header set, whose access-token entry is the literal
`*****`; and whenever a request produces a live call, the same request with
`?dryRun=true` produces a 200 dry-run response whose `wouldCall` URL and body
are exactly the URL and body of that live call. -/
theorem claim_C7 (env : Env) (req : Request) :
    (dryRunFlag req = true → ∀ c, IndexJs.refundHandler env req ≠ .liveCall c)
    ∧ (∀ wc, IndexJs.refundHandler env req = .dryRunResponse wc →
        wc.headers = maskedHeaders
        ∧ (wc.headers.find? (fun p => p.fst == "X-Shopify-Access-Token")).map Prod.snd
            = some "*****")
    ∧ (∀ c, IndexJs.refundHandler env req = .liveCall c →
        IndexJs.refundHandler env (withDryRunQuery req)
          = .dryRunResponse { method := "POST",
                              url := IndexJs.shopifyAdminRequestUrl env c,
                              headers := maskedHeaders, body := jsVal c.body })
    ∧ (dryRunFlag req = true → ∀ c, Part000.refundCalculateHandler env req ≠ .liveCall c)
    ∧ (∀ c, Part000.refundCalculateHandler env req = .liveCall c →
        Part000.refundCalculateHandler env (withDryRunQuery req)
          = .dryRunResponse { method := "POST",
                              url := Part000.adminRequestUrl env c,
                              headers := maskedHeaders, body := jsVal c.body }) := by
  refine ⟨?_, ?_, ?_, ?_, ?_⟩
  · intro hd c h
    simp only [IndexJs.refundHandler] at h
    split at h
    · exact absurd h (by simp)
    split at h
    · exact absurd h (by simp)
    split at h
    · exact absurd h (by simp)
    split at h
    · exact absurd h (by simp)
    · exact absurd h (by simp)
  · intro wc h
    simp only [IndexJs.refundHandler] at h
    split at h
    · exact absurd h (by simp)
    split at h
    · exact absurd h (by simp)
    split at h
    · exact absurd h (by simp)
    split at h
    · exact absurd h (by simp)
    split at h
    · have hwc := (HandlerResult.dryRunResponse.inj h).symm
      subst hwc
      exact ⟨rfl, rfl⟩
    · exact absurd h (by simp)
  · intro c h
    simp only [IndexJs.refundHandler] at h ⊢
    simp only [wdrq_bodyGet, wdrq_getShopDomain, wdrq_getToken, wdrq_getApiVersion,
      wdrq_dryRunFlag, if_true]
    split at h
    · next hg => rw [if_pos hg]; exact absurd h (by simp)
    next hg1 =>
    rw [if_neg hg1]
    split at h
    · next hg => rw [if_pos hg]; exact absurd h (by simp)
    next hg2 =>
    rw [if_neg hg2]
    split at h
    · next hg => rw [if_pos hg]; exact absurd h (by simp)
    next hg3 =>
    rw [if_neg hg3]
    split at h
    · next hg => rw [if_pos hg]; exact absurd h (by simp)
    next hg4 =>
    rw [if_neg hg4]
    split at h
    · exact absurd h (by simp)
    · have hc := (HandlerResult.liveCall.inj h).symm
      subst hc
      have hv : jsOr (some (IndexJs.getApiVersion env req))
          (some (JVal.str (shopifyApiVersion env))) = some (IndexJs.getApiVersion env req) := by
        unfold jsOr
        rw [if_pos (truthy_getApiVersion env req)]
      simp only [IndexJs.shopifyAdminRequestUrl, hv]
      rfl
  · intro hd c h
    simp only [Part000.refundCalculateHandler] at h
    split at h
    · exact absurd h (by simp)
    split at h
    · exact absurd h (by simp)
    split at h
    · exact absurd h (by simp)
    split at h
    · exact absurd h (by simp)
    · exact absurd h (by simp)
  · intro c h
    simp only [Part000.refundCalculateHandler] at h ⊢
    simp only [wdrq_bodyGet, wdrq_getShopDomain, wdrq_getToken, wdrq_dryRunFlag, if_true]
    split at h
    · next hg => rw [if_pos hg]; exact absurd h (by simp)
    next hg1 =>
    rw [if_neg hg1]
    split at h
    · next hg => rw [if_pos hg]; exact absurd h (by simp)
    next hg2 =>
    rw [if_neg hg2]
    split at h
    · next hg => rw [if_pos hg]; exact absurd h (by simp)
    next hg3 =>
    rw [if_neg hg3]
    split at h
    · next hg => rw [if_pos hg]; exact absurd h (by simp)
    next hg4 =>
    rw [if_neg hg4]
    split at h
    · exact absurd h (by simp)
    · have hc := (HandlerResult.liveCall.inj h).symm
      subst hc
      simp only [Part000.adminRequestUrl]
      rfl

/-- The live call `src/unnamed/part_000`'s refund-calculate handler makes for
`reqApiOverride`. -/
def liveCalcApiOverride : AdminCall :=
  { liveApiOverride with path := "/orders/1/refunds/calculate.json" }

/-- C7 witness: a concrete refund request that live-calls without `dryRun`
and, with `?dryRun=true` added, produces the matching masked preview in both
revisions. -/
theorem claim_C7_witness :
    IndexJs.refundHandler emptyEnv (withDryRunQuery reqApiOverride)
      = .dryRunResponse { method := "POST",
                          url := IndexJs.shopifyAdminRequestUrl emptyEnv liveApiOverrideIndex,
                          headers := maskedHeaders, body := jsVal liveApiOverrideIndex.body }
    ∧ Part000.refundCalculateHandler emptyEnv (withDryRunQuery reqApiOverride)
      = .dryRunResponse { method := "POST",
                          url := Part000.adminRequestUrl emptyEnv liveCalcApiOverride,
                          headers := maskedHeaders, body := jsVal liveCalcApiOverride.body } :=
  ⟨(claim_C7 emptyEnv reqApiOverride).2.2.1 liveApiOverrideIndex rfl,
   (claim_C7 emptyEnv reqApiOverride).2.2.2.2 liveCalcApiOverride rfl⟩

/-- A fulfillment whose first line item has a string `fulfillment_order_id`. -/
def fulfillStr : JVal :=
  .obj [("line_items_by_fulfillment_order", .arr [.obj [("fulfillment_order_id", .str "123")]])]

/-- A fulfillment-creation request carrying `fulfillStr`. -/
def reqFulfillStr : Request :=
  { headers := [("x-shopify-access-token", "tok")], rawBody := none,
    body := some (.obj [("shopDomain", .str "s.example"), ("fulfillment", fulfillStr)]),
    query := [] }

/-- The live call `src/index.js`'s `/shopify/fulfillments/create` handler
makes for `reqFulfillStr` — the string id is relayed unchecked. -/
def liveFulfillStr : AdminCall :=
  { shopDomain := .str "s.example", accessToken := .str "tok", method := "POST",
    path := "/fulfillments.json", body := some (.obj [("fulfillment", fulfillStr)]),
    apiVersion := some (.str "2026-01") }

/-- Coercing a present value is the identity. -/
theorem jsVal_some (v : JVal) : jsVal (some v) = v := rfl

/-- An object value is truthy. -/
theorem truthy_obj (fs : List (String × JVal)) : truthy (some (.obj fs)) = true := rfl

/-- `typeof` of an object value. -/
theorem jsTypeof_obj (fs : List (String × JVal)) : jsTypeof (some (.obj fs)) = "object" := rfl

/-- `typeof` of a string value. -/
theorem jsTypeof_str (s : String) : jsTypeof (some (.str s)) = "string" := rfl

/-- `typeof` of a number value. -/
theorem jsTypeof_num (n : Int) : jsTypeof (some (.num n)) = "number" := rfl

/-- C8. The claim also covers `POST /shopify/fulfillments/create` in
`src/index.js` (lines 314-359), which has no `fulfillment_order_id` type
check: the concrete request with a string id `"123"` proceeds to the upstream
relay instead of being rejected with 400, refuting the claim as stated. -/
theorem claim_C8_counterexample :
    IndexJs.fulfillmentsCreateHandler emptyEnv reqFulfillStr = .liveCall liveFulfillStr
    ∧ IndexJs.fulfillmentsCreateHandler emptyEnv reqFulfillStr
        ≠ .clientErrorWithValue 400 "`fulfillment_order_id` must be a NUMBER (not string)."
            "string" (some (.str "123")) := by
  refine ⟨rfl, ?_⟩
  rw [show IndexJs.fulfillmentsCreateHandler emptyEnv reqFulfillStr = .liveCall liveFulfillStr
      from rfl]
  simp

/-- C8 (amended). The `POST /shopify/fulfillments` handler of
`src/unnamed/part_000` rejects a string `fulfillment_order_id` with a 400
reporting the received type, and lets a numeric one proceed to the relay; the
`POST /shopify/fulfillments/create` handler of `src/index.js` performs no such
validation and relays any truthy `fulfillment` object, string id included. -/
theorem claim_C8 (env : Env) (req : Request) :
    (∀ fs e rest t,
      truthy (getShopDomain env req) = true →
      truthy (getShopifyAccessToken env req) = true →
      bodyGet req "fulfillment" = some (.obj fs) →
      objGet (.obj fs) "line_items_by_fulfillment_order" = some (.arr (e :: rest)) →
      objGet e "fulfillment_order_id" = some (.str t) →
      Part000.fulfillmentsHandler env req
        = .clientErrorWithValue 400 "`fulfillment_order_id` must be a NUMBER (not string)."
            "string" (some (.str t)))
    ∧ (∀ fs e rest n,
        truthy (getShopDomain env req) = true →
        truthy (getShopifyAccessToken env req) = true →
        bodyGet req "fulfillment" = some (.obj fs) →
        objGet (.obj fs) "line_items_by_fulfillment_order" = some (.arr (e :: rest)) →
        objGet e "fulfillment_order_id" = some (.num n) →
        Part000.fulfillmentsHandler env req
          = .liveCall { shopDomain := jsVal (getShopDomain env req),
                        accessToken := jsVal (getShopifyAccessToken env req),
                        method := "POST", path := "/fulfillments.json",
                        body := some (.obj [("fulfillment", .obj fs)]),
                        apiVersion := none })
    ∧ (∀ fs,
        truthy (getShopDomain env req) = true →
        truthy (getShopifyAccessToken env req) = true →
        bodyGet req "fulfillment" = some (.obj fs) →
        IndexJs.fulfillmentsCreateHandler env req
          = .liveCall { shopDomain := jsVal (getShopDomain env req),
                        accessToken := jsVal (getShopifyAccessToken env req),
                        method := "POST", path := "/fulfillments.json",
                        body := some (.obj [("fulfillment", .obj fs)]),
                        apiVersion := some (IndexJs.getApiVersion env req) }) := by
  refine ⟨?_, ?_, ?_⟩
  · intro fs e rest t hd ht hf hl he
    simp [Part000.fulfillmentsHandler, hd, ht, hf, optChainGet, hl, arrFirst,
      isArray, arrLength, he, truthy_obj, jsTypeof_obj, jsTypeof_str]
  · intro fs e rest n hd ht hf hl he
    simp [Part000.fulfillmentsHandler, hd, ht, hf, optChainGet, hl, arrFirst,
      isArray, arrLength, he, truthy_obj, jsTypeof_obj, jsTypeof_num, jsVal_some]
  · intro fs hd ht hf
    simp [IndexJs.fulfillmentsCreateHandler, hd, ht, hf, truthy_obj, jsTypeof_obj, jsVal_some]

/-- A fulfillment-creation request whose first line item has the numeric id
`123`. -/
def reqFulfillNum : Request :=
  { reqFulfillStr with
    body := some (.obj [("shopDomain", .str "s.example"),
      ("fulfillment", .obj [("line_items_by_fulfillment_order",
        .arr [.obj [("fulfillment_order_id", .num 123)]])])]) }

/-- C8 witness: the part_000 handler rejects the string id with the typed 400
and relays the numeric one; the index.js create handler relays the string id. -/
theorem claim_C8_witness :
    Part000.fulfillmentsHandler emptyEnv reqFulfillStr
      = .clientErrorWithValue 400 "`fulfillment_order_id` must be a NUMBER (not string)."
          "string" (some (.str "123"))
    ∧ Part000.fulfillmentsHandler emptyEnv reqFulfillNum
      = .liveCall { shopDomain := jsVal (getShopDomain emptyEnv reqFulfillNum),
                    accessToken := jsVal (getShopifyAccessToken emptyEnv reqFulfillNum),
                    method := "POST", path := "/fulfillments.json",
                    body := some (.obj [("fulfillment", .obj [("line_items_by_fulfillment_order",
                      .arr [.obj [("fulfillment_order_id", .num 123)]])])]),
                    apiVersion := none }
    ∧ IndexJs.fulfillmentsCreateHandler emptyEnv reqFulfillStr
      = .liveCall { shopDomain := jsVal (getShopDomain emptyEnv reqFulfillStr),
                    accessToken := jsVal (getShopifyAccessToken emptyEnv reqFulfillStr),
                    method := "POST", path := "/fulfillments.json",
                    body := some (.obj [("fulfillment",
                      .obj [("line_items_by_fulfillment_order",
                        .arr [.obj [("fulfillment_order_id", .str "123")]])])]),
                    apiVersion := some (IndexJs.getApiVersion emptyEnv reqFulfillStr) } :=
  ⟨(claim_C8 emptyEnv reqFulfillStr).1
     [("line_items_by_fulfillment_order", .arr [.obj [("fulfillment_order_id", .str "123")]])]
     (.obj [("fulfillment_order_id", .str "123")]) [] "123" rfl rfl rfl rfl rfl,
   (claim_C8 emptyEnv reqFulfillNum).2.1
     [("line_items_by_fulfillment_order", .arr [.obj [("fulfillment_order_id", .num 123)]])]
     (.obj [("fulfillment_order_id", .num 123)]) [] 123 rfl rfl rfl rfl rfl,
   (claim_C8 emptyEnv reqFulfillStr).2.2
     [("line_items_by_fulfillment_order", .arr [.obj [("fulfillment_order_id", .str "123")]])]
     rfl rfl rfl⟩

/-- C10. Confirmed on the refund handlers of `src/index.js` and
`src/unnamed/part_000`: a body field `dryRun` holding the string `"true"`
(with no `dryRun` query parameter) does not set the dry-run flag — the
comparison is `=== true` — so the handler never takes the dry-run branch and
a validation-passing request performs a live upstream call. -/
theorem claim_C10 (env : Env) (req : Request)
    (hb : bodyGet req "dryRun" = some (.str "true"))
    (hq : req.queryGet "dryRun" = none) :
    dryRunFlag req = false
    ∧ (∀ wc, IndexJs.refundHandler env req ≠ .dryRunResponse wc)
    ∧ (∀ wc, Part000.refundHandler env req ≠ .dryRunResponse wc)
    ∧ (truthy (getShopDomain env req) = true →
        truthy (bodyGet req "orderId") = true →
        truthy (bodyGet req "refund") = true →
        jsTypeof (bodyGet req "refund") = "object" →
        truthy (getShopifyAccessToken env req) = true →
        (∃ c, IndexJs.refundHandler env req = .liveCall c)
        ∧ (∃ c, Part000.refundHandler env req = .liveCall c)) := by
  have hflag : dryRunFlag req = false := by
    unfold dryRunFlag
    rw [hq, hb]
    rfl
  refine ⟨hflag, ?_, ?_, ?_⟩
  · intro wc h
    simp only [IndexJs.refundHandler] at h
    split at h
    · exact absurd h (by simp)
    split at h
    · exact absurd h (by simp)
    split at h
    · exact absurd h (by simp)
    split at h
    · exact absurd h (by simp)
    · rw [hflag] at h
      simp at h
  · intro wc h
    simp only [Part000.refundHandler] at h
    split at h
    · exact absurd h (by simp)
    split at h
    · exact absurd h (by simp)
    split at h
    · exact absurd h (by simp)
    split at h
    · exact absurd h (by simp)
    · rw [hflag] at h
      simp at h
  · intro h1 h2 h3 h4 h5
    constructor
    · simp only [IndexJs.refundHandler]
      simp [h1, h2, h3, h4, h5, hflag]
    · simp only [Part000.refundHandler]
      simp [h1, h2, h3, h4, h5, hflag]

/-- A validation-passing refund request whose body `dryRun` is the string
`"true"` and whose query string is empty. -/
def reqStrDry : Request :=
  { headers := [("x-shopify-access-token", "tok")], rawBody := none,
    body := some (.obj [("shopDomain", .str "s.example"), ("orderId", .num 1),
                        ("refund", .obj []), ("dryRun", .str "true")]),
    query := [] }

/-- C10 witness: the concrete string-valued `dryRun` request takes the live
branch in both revisions. -/
theorem claim_C10_witness :
    dryRunFlag reqStrDry = false
    ∧ (∃ c, IndexJs.refundHandler emptyEnv reqStrDry = .liveCall c)
    ∧ (∃ c, Part000.refundHandler emptyEnv reqStrDry = .liveCall c) :=
  ⟨(claim_C10 emptyEnv reqStrDry rfl rfl).1,
   ((claim_C10 emptyEnv reqStrDry rfl rfl).2.2.2 rfl rfl rfl rfl rfl).1,
   ((claim_C10 emptyEnv reqStrDry rfl rfl).2.2.2 rfl rfl rfl rfl rfl).2⟩

end ShopifyProxy
